import Mathlib

/-!
Shallow embedding of `render.py` from the wuas-render repository: a
table-file parser, a layered sprite compositor, and a JSON exporter for a
tabletop-game board description.

Python strings are modelled as `List Char` (`Line`), files as `List Line`
(one entry per line returned by `readline`, without the trailing newline;
reads past end-of-file return the empty line, as `readline` returns `""`).
Raised Python exceptions are modelled with `Except Err`.  Pixel colours are
modelled abstractly as `Nat`; alpha is modelled as binary (a pixel of an
image is `none` when fully transparent, `some c` when opaque), which is the
level at which the compositing claims speak.
-/

namespace Wuas

/-- One Python string. -/
abbrev Line := List Char

/-- Error messages standing in for raised Python exceptions. -/
abbrev Err := String

/-- Python whitespace characters recognised by `str.strip` / `str.split`
(the ASCII ones; the inputs in question are ASCII). -/
def pyIsSpace (c : Char) : Bool :=
  c = ' ' || c = '\t' || c = '\n' || c = '\r' || c = '\x0b' || c = '\x0c'

/-- Python `str.strip()`: drop whitespace from both ends. -/
def stripL (l : Line) : Line :=
  ((l.dropWhile pyIsSpace).reverse.dropWhile pyIsSpace).reverse

/-- Python `str.split()` with no argument: split on whitespace runs,
discarding empty pieces. -/
def splitWS (l : Line) : List Line :=
  (l.splitOnP pyIsSpace).filter (fun p => ¬p.isEmpty)

/-- Python `str.startswith("#")`. -/
def startsHash (l : Line) : Bool :=
  match l with
  | '#' :: _ => true
  | _ => false

/-- Python `str.endswith("?")`. -/
def endsQ (l : Line) : Bool :=
  l.getLast? = some '?'

/-- Value of a nonempty all-digit string, `none` otherwise. -/
def digitsVal : Line → Option Nat
  | [] => none
  | ds =>
    ds.foldl (fun acc c =>
      match acc with
      | none => none
      | some n => if c.isDigit then some (n * 10 + (c.toNat - '0'.toNat)) else none)
      (some 0)

/-- Python `int(s)` on a string: optional surrounding whitespace, optional
sign, then decimal digits; anything else raises `ValueError`. -/
def pyInt (l : Line) : Except Err Int :=
  let s := stripL l
  match s with
  | '-' :: ds =>
    match digitsVal ds with
    | some n => .ok (-(n : Int))
    | none => .error "ValueError: invalid literal for int"
  | '+' :: ds =>
    match digitsVal ds with
    | some n => .ok (n : Int)
    | none => .error "ValueError: invalid literal for int"
  | ds =>
    match digitsVal ds with
    | some n => .ok (n : Int)
    | none => .error "ValueError: invalid literal for int"

/-- Lookup in a Python dict built by successive assignments, modelled as an
association list in insertion order: a later assignment to the same key
shadows an earlier one. -/
def pyDictGet {α : Type} (d : List (Line × α)) (k : Line) : Option α :=
  (d.reverse.find? (fun p => p.1 = k)).map (fun p => p.2)

/-- The literal `"nil"`. -/
def nilL : Line := ['n', 'i', 'l']

/-- The literal `"gap"`. -/
def gapL : Line := ['g', 'a', 'p']

/-- The literal `"item"`. -/
def itemL : Line := ['i', 't', 'e', 'm']

/-- `space_abbr` from `render.py`: if the identifier ends with `?`, strip
the question mark; then `"nil"` becomes `None` and `""` becomes `"gap"`. -/
def space_abbr (s : Line) : Option Line :=
  let s := if endsQ s then s.dropLast else s
  if s = nilL then none
  else if s = [] then some gapL
  else some s

/-- `space_layer` from `render.py`: `None` has no layer, `"gap"` is layer 0,
everything else is layer 1. -/
def space_layer (s : Option Line) : Option Nat :=
  match s with
  | none => none
  | some s => if s = gapL then some 0 else some 1

/-- The `Space` class: a board cell.  `space` is the normalised identifier,
`refs` the list of one-character ref codes, `visible` the Python attribute
`show` (`show` is a Lean keyword, hence the rename): false iff the raw
identifier ended with `?`. -/
structure Space where
  space : Option Line
  refs : List Char
  visible : Bool
  deriving Repr, DecidableEq

/-- `Space.__init__`: normalise the raw identifier with `space_abbr`, keep
the refs, and compute visibility from the raw (pre-normalisation) string. -/
def Space.init (raw : Line) (refs : List Char) : Space :=
  { space := space_abbr raw, refs := refs, visible := ¬endsQ raw }

/-- `Space.layer`. -/
def Space.layer (s : Space) : Option Nat :=
  space_layer s.space

/-- The `Ref` class: a named token/item placement.  `name` is the token
identifier (the literal `"item"` when the ref is an item), `item` the item
identifier (`"nil"` when absent), `pos` the pixel offset in the cell. -/
structure Ref where
  name : Line
  item : Line
  pos : Int × Int
  deriving Repr, DecidableEq

/-- The literal `"HIGHLIGHT"`, the single key of the directive registry. -/
def hlL : Line := ['H', 'I', 'G', 'H', 'L', 'I', 'G', 'H', 'T']

/-- The comment-skipping loop `while infile.readline().startswith("#")`:
each iteration consumes one line; the loop stops at the first line that does
not start with `#`, and that line has then been consumed as well. -/
def skipComments : List Line → List Line
  | [] => []
  | l :: ls => if startsHash l then skipComments ls else ls

/-- One `infile.readline()` call: past end-of-file it returns `""`. -/
def readLn : List Line → Line × List Line
  | [] => ([], [])
  | l :: ls => (l, ls)

/-- The cell strings of one grid line: `line.split("|")[1:-1]`, each piece
stripped. -/
def cellsOf (l : Line) : List Line :=
  (((l.splitOn '|').drop 1).dropLast).map stripL

/-- One grid row: the spaces line's cells zipped with the tokens line's
cells; each spaces cell has all asterisks removed and becomes a `Space`
whose refs are the characters of the corresponding tokens cell. -/
def parseRow (s t : Line) : List Space :=
  ((cellsOf s).zip (cellsOf t)).map
    (fun vz => Space.init (vz.1.filter (fun c => c ≠ '*')) vz.2)

/-- The grid-section loop of `load_table`: read a spaces line (stop when it
is blank), a tokens line, then discard the following separator line; repeat.
Returns the rows and the lines remaining after the loop. -/
def parseRows : List Line → List (List Space) × List Line
  | [] => ([], [])
  | [s] => if stripL s = [] then ([], []) else ([parseRow s []], [])
  | [s, t] => if stripL s = [] then ([], [t]) else ([parseRow s t], [])
  | s :: t :: _h :: rest =>
    if stripL s = [] then ([], t :: _h :: rest)
    else
      let pr := parseRows rest
      (parseRow s t :: pr.1, pr.2)

/-- The ref-table loop of `load_table`: one whitespace-delimited line
`code name item x y` per ref, until a blank line; `x`, `y` must be
integers, and a line with a different field count fails the unpacking. -/
def parseRefs : List Line → Except Err (List (Line × Ref) × List Line)
  | [] => .ok ([], [])
  | l :: rest =>
    if stripL l = [] then .ok ([], rest)
    else
      match splitWS l with
      | [c, n, i, xs, ys] => do
        let x ← pyInt xs
        let y ← pyInt ys
        let pr ← parseRefs rest
        .ok ((c, ⟨n, i, (x, y)⟩) :: pr.1, pr.2)
      | _ => .error "ValueError: ref line does not have 5 fields"

/-- The directive-section loop of `load_table`: each nonblank line is split
on whitespace; its first token must be a key of the directive registry
(only `HIGHLIGHT` exists, anything else raises `KeyError`).  Returns each
line's `(keyword, argument list)` in file order. -/
def parseDirs : List Line → Except Err (List (Line × List Line) × List Line)
  | [] => .ok ([], [])
  | l :: rest =>
    if stripL l = [] then .ok ([], rest)
    else
      match splitWS l with
      | [] => .error "IndexError: list index out of range"
      | kw :: args =>
        if kw = hlL then do
          let pr ← parseDirs rest
          .ok ((kw, args) :: pr.1, pr.2)
        else .error "KeyError: unknown directive"

/-- The directive closures `load_table` actually stores.  The Python code
appends `lambda image: fn(image, data[1:])` for each line, but `fn` and
`data` are captured by reference and are rebound on every iteration, so by
the time any closure runs (after the loop has finished) every one of them
applies the handler and arguments of the LAST directive line. -/
def effectiveDirs (ds : List (Line × List Line)) : List (Line × List Line) :=
  match ds.getLast? with
  | none => []
  | some d => List.replicate ds.length d

/-- The 3-tuple returned by `load_table`.  `np.array(table)` merely wraps
the row list and is not otherwise modelled. -/
structure Table where
  table : List (List Space)
  refs : List (Line × Ref)
  dirs : List (Line × List Line)
  deriving Repr, DecidableEq

/-- `load_table`: skip leading comments (consuming one extra line, see
`skipComments`), parse the version line (must be the integer 1; on any
other value the code evaluates `StandardError`, a name that does not exist
in Python 3, raising `NameError`), read the header line whose `+` count
minus one is computed into the unused local `width`, then parse the grid
rows, the ref table and the directives. -/
def load_table (file : List Line) : Except Err Table :=
  let rest := skipComments file
  let (vline, rest0) := readLn rest
  do
    let version ← pyInt vline
    if version ≠ 1 then
      .error "NameError: name StandardError is not defined"
    else
      let (headline, rest1) := readLn rest0
      let _width : Int := (headline.count '+' : Int) - 1
      let (tbl, rest2) := parseRows rest1
      let (refs, rest3) ← parseRefs rest2
      let (dlines, _rest4) ← parseDirs rest3
      .ok ⟨tbl, refs, effectiveDirs dlines⟩

/-! Images.  A pixel is `none` when fully transparent and `some c` when
opaque with colour `c`; this binary-alpha model is the level at which the
compositing claims speak. -/

/-- Pixel colours, abstractly. -/
abbrev Color := Nat

/-- An image (or sprite sheet, or cropped sprite): a pixel function that is
`none` outside the image's extent. -/
abbrev Image := Int → Int → Option Color

/-- A sprite sheet. -/
abbrev Sheet := Image

/-- A cropped sprite. -/
abbrev Sprite := Image

/-- `Image.new("RGBA", ...)`: a fully transparent canvas. -/
def emptyImage : Image := fun _ _ => none

/-- `sheet.crop((l, t, r, b))` (PIL): the box is absolute coordinates
(left, top, right, bottom), so the result has width `r - l` and height
`b - t`; pixels drawn from outside the sheet are transparent. -/
def cropSheet (sheet : Sheet) (l t r b : Int) : Sprite :=
  fun u v =>
    if 0 ≤ u ∧ u < r - l ∧ 0 ≤ v ∧ v < b - t then sheet (l + u) (t + v) else none

/-- One `result.paste(img, (ox, oy), img)` call: the sprite and where its
top-left corner lands. -/
structure Paste where
  sprite : Sprite
  ox : Int
  oy : Int

/-- `base.paste(p.sprite, (p.ox, p.oy), p.sprite)`: the sprite's own alpha
is the mask, so opaque sprite pixels overwrite and transparent ones leave
the base untouched. -/
def paste (base : Image) (p : Paste) : Image :=
  fun x y =>
    match p.sprite (x - p.ox) (y - p.oy) with
    | some c => some c
    | none => base x y

/-- A sequence of pastes applied left to right onto a base image. -/
def applyPastes (base : Image) (ps : List Paste) : Image :=
  ps.foldl paste base

/-- `dictionary['spaces']` entry: an object that may or may not carry a
`coords` string `"x,y,w,h"`. -/
structure SpaceEntry where
  coords : Option Line

/-- `dictionary['items']` / `dictionary['tokens']` entry: an optional
thumbnail origin and an optional span in 16-pixel units. -/
structure TokenEntry where
  thumbnail : Option (Int × Int)
  span : Option (Int × Int)

/-- The sprite dictionary (the JSON file loaded into the Python global
`dictionary`, threaded explicitly here). -/
structure Dicts where
  spaces : List (Line × SpaceEntry)
  items : List (Line × TokenEntry)
  tokens : List (Line × TokenEntry)

/-- `Space.image`: `None` when the identifier is absent or the space is
hidden; otherwise the unguarded subscripts
`dictionary['spaces'][self.space]['coords']` raise `KeyError` when the
identifier or its `coords` entry is missing, and the coords string is
parsed as exactly four integers and used as an absolute crop box. -/
def Space.image (d : List (Line × SpaceEntry)) (sheet : Sheet) (e : Space) :
    Except Err (Option Sprite) :=
  match e.space, e.visible with
  | none, _ => .ok none
  | some _, false => .ok none
  | some s, true => do
    let entry ← match pyDictGet d s with
                | some en => Except.ok en
                | none => Except.error "KeyError: space identifier not in dictionary"
    let coordsStr ← match entry.coords with
                    | some cs => Except.ok cs
                    | none => Except.error "KeyError: coords"
    let nums ← (coordsStr.splitOn ',').mapM pyInt
    match nums with
    | [x, y, w, h] => .ok (some (cropSheet sheet x y w h))
    | _ => .error "ValueError: coords do not unpack to 4 integers"

/-- `Ref._image`: guarded lookup — missing identifier or missing
`thumbnail` gives `None` (no exception possible); otherwise crop the token
sheet at the thumbnail origin with extent `16 * span` (span defaults to
1×1). -/
def Ref.imageIn (tokens : Sheet) (d : List (Line × TokenEntry)) (name : Line) :
    Option Sprite :=
  match pyDictGet d name with
  | none => none
  | some e =>
    match e.thumbnail with
    | none => none
    | some xy =>
      let sp := e.span.getD (1, 1)
      some (cropSheet tokens xy.1 xy.2 (xy.1 + 16 * sp.1) (xy.2 + 16 * sp.2))

/-- `Ref.image`: `self._image(tokens, dictionary['items'], self.item) or
self._image(tokens, dictionary['tokens'], self.name)` — PIL images are
truthy and `None` is falsy, so the item image wins when it resolves and
the token-name image is the fallback. -/
def Ref.image (tokens : Sheet) (items tokensD : List (Line × TokenEntry)) (r : Ref) :
    Option Sprite :=
  match Ref.imageIn tokens items r.item with
  | some i => some i
  | none => Ref.imageIn tokens tokensD r.name

/-- The cells of the grid with their coordinates, in the traversal order of
the Python loops: rows top to bottom (`y`), cells left to right (`x`);
each element is `(x, y, cell)`. -/
def enumGrid (t : List (List Space)) : List (Nat × Nat × Space) :=
  (t.enum.map (fun yr => yr.2.enum.map (fun xe => (xe.1, yr.1, xe.2)))).flatten

/-- The board tile width and height in pixels (`WIDTH`/`HEIGHT`). -/
def WIDTH : Int := 32

/-- See `WIDTH`. -/
def HEIGHT : Int := 32

/-- One compositor pass over the grid for the cells of layer `L` (0 = gap
pass, 1 = normal-space pass): for each such cell look up its tile image
(which may raise) and, when there is one, paste it at
`(x * WIDTH, y * HEIGHT)`.  The pastes are returned in traversal order;
folding them onto the base image reproduces the Python loop. -/
def layerPastes (L : Nat) (d : List (Line × SpaceEntry)) (sheet : Sheet)
    (t : List (List Space)) : Except Err (List Paste) := do
  let opts ← (enumGrid t).mapM (fun c =>
    if c.2.2.layer = some L then do
      let img ← Space.image d sheet c.2.2
      pure (img.map (fun s => Paste.mk s ((c.1 : Int) * WIDTH) ((c.2.1 : Int) * HEIGHT)))
    else
      pure (none : Option Paste))
  pure (opts.filterMap id)

/-- The token/ref pass: for every cell, for every ref code in order, the
code is looked up in the ref table (`refs[ref]` raises `KeyError` when
missing), its image resolved, and — when an image resolves — pasted at
`(x * WIDTH + dx, y * HEIGHT + dy)`. -/
def refPastes (items tokensD : List (Line × TokenEntry)) (tokSheet : Sheet)
    (refs : List (Line × Ref)) (t : List (List Space)) : Except Err (List Paste) := do
  let opts ← (enumGrid t).mapM (fun c =>
    c.2.2.refs.mapM (fun code => do
      let r ← match pyDictGet refs [code] with
              | some r => Except.ok r
              | none => Except.error "KeyError: ref code not in ref table"
      pure ((Ref.image tokSheet items tokensD r).map
        (fun s => Paste.mk s ((c.1 : Int) * WIDTH + r.pos.1)
                              ((c.2.1 : Int) * HEIGHT + r.pos.2)))))
  pure (opts.flatten.filterMap id)

/-- The literal `"ROW"`. -/
def rowL : Line := ['R', 'O', 'W']

/-- The literal `"COLUMN"`. -/
def colL : Line := ['C', 'O', 'L', 'U', 'M', 'N']

/-- Abstract encoding of the named PIL colour `'red'`. -/
def redColor : Color := 0xFF0000

/-- One `draw.line(points, fill, width)` call. -/
structure DrawCmd where
  points : List (Int × Int)
  lineWidth : Int
  color : Color
  deriving Repr, DecidableEq

/-- The `highlight` directive handler, up to rasterisation: unpack the two
arguments (raising `ValueError` otherwise), parse the index, and build the
closed 4-wide red polyline `[(x0,y0), (x0,y1), (x1,y1), (x1,y0), (x0,y0)]`
where for `ROW n` the corners are `(0, HEIGHT*n)`–`(W, HEIGHT*(n+1))` and
for `COLUMN n` they are `(WIDTH*n, 0)`–`(WIDTH*(n+1), H)`; any other first
argument leaves `x0` unassigned and raises `UnboundLocalError` at the draw
call. -/
def highlightCmd (sz : Int × Int) (args : List Line) : Except Err DrawCmd :=
  match args with
  | [rc, numS] => do
    let num ← pyInt numS
    if rc = rowL then
      .ok ⟨[(0, HEIGHT * num), (0, HEIGHT * (num + 1)), (sz.1, HEIGHT * (num + 1)),
            (sz.1, HEIGHT * num), (0, HEIGHT * num)], 4, redColor⟩
    else if rc = colL then
      .ok ⟨[(WIDTH * num, 0), (WIDTH * num, sz.2), (WIDTH * (num + 1), sz.2),
            (WIDTH * (num + 1), 0), (WIDTH * num, 0)], 4, redColor⟩
    else
      .error "UnboundLocalError: x0 referenced before assignment"
  | _ => .error "ValueError: cannot unpack highlight arguments"

/-- Whether `(x, y)` lies in the 4-wide stroke of one polyline segment — a
model of PIL rasterisation adequate for the axis-aligned segments used
here; no claim depends on exact pixel coverage. -/
def segStroke (p q : Int × Int) (w : Int) (x y : Int) : Bool :=
  decide (min p.1 q.1 - w / 2 ≤ x ∧ x ≤ max p.1 q.1 + w / 2 ∧
          min p.2 q.2 - w / 2 ≤ y ∧ y ≤ max p.2 q.2 + w / 2)

/-- Whether `(x, y)` lies in the stroke of any segment of the polyline. -/
def onStroke (c : DrawCmd) (x y : Int) : Bool :=
  (c.points.zip c.points.tail).any (fun pq => segStroke pq.1 pq.2 c.lineWidth x y)

/-- Apply one draw command to the image, painting the stroke in the
command's colour. -/
def drawCmd (img : Image) (c : DrawCmd) : Image :=
  fun x y => if onStroke c x y then some c.color else img x y

/-- Apply one stored directive closure: look up the handler (only
`HIGHLIGHT` exists) and run it on the image being mutated in place. -/
def applyDir (sz : Int × Int) (img : Image) (d : Line × List Line) :
    Except Err Image :=
  if d.1 = hlL then do
    let cmd ← highlightCmd sz d.2
    pure (drawCmd img cmd)
  else .error "KeyError: unknown directive"

/-- Apply the stored directives to the composited image in order. -/
def applyDirs (sz : Int × Int) (dirs : List (Line × List Line)) (img : Image) :
    Except Err Image :=
  dirs.foldlM (applyDir sz) img

/-- The unpacking `height, width = table.shape`: `np.array(table)` is a
2-D array exactly when the table has at least one row and all rows share
one length, and then the shape is `(rows, columns)`.  Otherwise the shape
is one-dimensional — `np.array([])` has shape `(0,)`, and a ragged table
gives a 1-D object array (recent numpy refuses to build it at all) — and
the two-variable unpack raises `ValueError`. -/
def tableShape (t : List (List Space)) : Except Err (Nat × Nat) :=
  match t with
  | [] => .error "ValueError: not enough values to unpack"
  | r :: rs =>
    if rs.all (fun row => row.length = r.length) then
      .ok ((r :: rs).length, r.length)
    else .error "ValueError: not enough values to unpack"

/-- `render_image`: the shape unpack `height, width = table.shape` runs
first (raising `ValueError` on a zero-row or ragged table, see
`tableShape`); then a transparent canvas of the grid size scaled by the
tile size receives, strictly in this order, the gap pass (layer 0), the
normal-space pass (layer 1), the token/ref pass, and finally the
directives.  The Python loops crop and paste interleaved within each pass;
collecting each pass's pastes first and folding them produces the same
image because the passes are strictly sequential. -/
def render_image (d : Dicts) (spacesSheet tokensSheet : Sheet) (tbl : Table) :
    Except Err Image := do
  let sh ← tableShape tbl.table
  let sz : Int × Int := ((sh.2 : Int) * WIDTH, (sh.1 : Int) * HEIGHT)
  let gl ← layerPastes 0 d.spaces spacesSheet tbl.table
  let sl ← layerPastes 1 d.spaces spacesSheet tbl.table
  let rl ← refPastes d.items d.tokens tokensSheet tbl.refs tbl.table
  applyDirs sz tbl.dirs (applyPastes (applyPastes (applyPastes emptyImage gl) sl) rl)

/-- One entry of the exported token list. -/
structure JsonToken where
  object : Line
  position : Int × Int
  deriving Repr, DecidableEq

/-- `elem.space or "gap"`: in Python both `None` and `""` are falsy (the
normaliser never produces `""`, but the translation keeps the `or`
semantics). -/
def pyOrGap (s : Option Line) : Line :=
  match s with
  | none => gapL
  | some l => if l = [] then gapL else l

/-- The token entry `render_json` builds for ref code `code` in cell
`(x, y)`: the ref is looked up (`KeyError` when missing), the display name
is the item identifier when the ref's name is the `"item"` sentinel, and
the position is `(x * WIDTH + dx, y * HEIGHT + dy)`. -/
def tokenEntry (refs : List (Line × Ref)) (x y : Nat) (code : Char) :
    Except Err JsonToken :=
  match pyDictGet refs [code] with
  | none => .error "KeyError: ref code not in ref table"
  | some r =>
    let name := if r.name = itemL then r.item else r.name
    .ok ⟨name, ((x : Int) * WIDTH + r.pos.1, (y : Int) * HEIGHT + r.pos.2)⟩

/-- The board object of the JSON export (the Python output wraps it as
`{"0": board}`). -/
structure JsonBoard where
  spaces : List (List Line)
  tokens : List JsonToken
  deriving Repr, DecidableEq

/-- `render_json`: a 2D array of space identifiers (`elem.space or "gap"`)
and the flat token list in traversal order. -/
def render_json (tbl : List (List Space)) (refs : List (Line × Ref)) :
    Except Err JsonBoard := do
  let tokss ← (enumGrid tbl).mapM (fun c => c.2.2.refs.mapM (tokenEntry refs c.1 c.2.1))
  .ok ⟨tbl.map (fun row => row.map (fun e => pyOrGap e.space)), tokss.flatten⟩

/-- Whether a paste has an opaque pixel at absolute position `(x, y)` —
i.e. whether this paste writes that pixel. -/
def covers (p : Paste) (x y : Int) : Bool :=
  (p.sprite (x - p.ox) (y - p.oy)).isSome

/-! Concrete inputs used by the counterexamples and witnesses below. -/

/-- A table file whose one grid row has 3 cells while the header line
`+-+` contains 2 `+` characters (so header count − 1 = 1).  The first,
empty, line is the one consumed by the comment-skipping loop. -/
def c1File : List Line :=
  [[], ['1'], "+-+".toList, "|a|b|c|".toList, "| | | |".toList, "+-+".toList, [], []]

/-- A table file with an empty grid and two directive lines,
`HIGHLIGHT ROW 0` then `HIGHLIGHT COLUMN 5`. -/
def c2File : List Line :=
  [[], ['1'], "+-+".toList, [], [],
   "HIGHLIGHT ROW 0".toList, "HIGHLIGHT COLUMN 5".toList, []]

/-- An empty sprite dictionary. -/
def emptyDicts : Dicts := ⟨[], [], []⟩

/-- A parsed table holding one visible space `foo`, an identifier absent
from the (empty) sprite dictionary. -/
def c3Table : Table := ⟨[[Space.mk (some ['f', 'o', 'o']) [] true]], [], []⟩

/-- A table file laid out exactly as the claims describe the format:
version `1` on the first line (there are no comment lines), then header,
one grid row, and blank-line terminators. -/
def c4File : List Line :=
  [['1'], "+-+".toList, "|a|".toList, "| |".toList, "+-+".toList, [], [], []]

/-- A table file with one comment line, one non-comment line for the
comment-skipping loop to swallow, and then the unsupported version `2`. -/
def c4bFile : List Line :=
  ["# comment".toList, "title".toList, ['2'], "+-+".toList, [], [], []]

/-- An items dictionary with one entry, `i`, carrying a thumbnail at
`(3, 4)` and no span. -/
def c7Items : List (Line × TokenEntry) := [(['i'], ⟨some (3, 4), none⟩)]

/-- An item ref pointing at the `i` entry of `c7Items`. -/
def c7Ref : Ref := ⟨itemL, ['i'], (0, 0)⟩

/-- A ref table with one ref, code `a`: token `t`, no item, offset (5, 7). -/
def c8Refs : List (Line × Ref) := [(['a'], ⟨['t'], nilL, (5, 7)⟩)]

/-- A one-cell grid whose cell has an absent space identifier and carries
ref code `a`. -/
def c8Tbl : List (List Space) := [[Space.mk none ['a'] true]]

/-- A sheet that is opaque everywhere (colour 0). -/
def fullSheet : Sheet := fun _ _ => some 0

/-- A sprite dictionary with crop rectangles for the spaces `gap` and
`a`. -/
def c5Dicts : Dicts :=
  ⟨[(gapL, ⟨some "0,0,32,32".toList⟩), (['a'], ⟨some "32,0,64,32".toList⟩)], [], []⟩

/-- A parsed 1×2 table: a visible gap cell next to a visible `a` cell, no
refs, no directives. -/
def c5Table : Table :=
  ⟨[[Space.mk (some gapL) [] true, Space.mk (some ['a']) [] true]], [], []⟩

/-! Theorems. -/

/-- Bind on a raised exception propagates the exception. -/
theorem errBind {α β : Type} (e : Err) (f : α → Except Err β) :
    (Except.error e >>= f) = Except.error e := rfl

/-- Bind on a successful result applies the continuation. -/
theorem okBind {α β : Type} (a : α) (f : α → Except Err β) :
    (Except.ok a >>= f) = f a := rfl

/-- A pixel not written by any paste of a pass keeps the base image's
value. -/
theorem applyPastes_of_not_covers : ∀ (ps : List Paste) (x y : Int) (b : Image),
    (∀ p ∈ ps, covers p x y = false) → applyPastes b ps x y = b x y
  | [], _, _, _, _ => rfl
  | p :: ps, x, y, b, h => by
    have hp := h p (List.mem_cons_self p ps)
    have hrec := applyPastes_of_not_covers ps x y (paste b p)
      (fun q hq => h q (List.mem_cons_of_mem _ hq))
    rw [show applyPastes b (p :: ps) = applyPastes (paste b p) ps from rfl, hrec]
    unfold paste
    unfold covers at hp
    cases hs : p.sprite (x - p.ox) (y - p.oy) with
    | none => simp
    | some c => rw [hs] at hp; simp at hp

/-- At a pixel written by at least one paste of a pass, the pass's result
does not depend on the base image the pass started from. -/
theorem applyPastes_congr : ∀ (ps : List Paste) (x y : Int),
    (∃ p ∈ ps, covers p x y = true) → ∀ b₁ b₂ : Image,
    applyPastes b₁ ps x y = applyPastes b₂ ps x y
  | [], _, _, h, _, _ => absurd h (by simp)
  | p :: ps, x, y, h, b₁, b₂ => by
    by_cases hrest : ∃ q ∈ ps, covers q x y = true
    · exact applyPastes_congr ps x y hrest (paste b₁ p) (paste b₂ p)
    · have hnone : ∀ q ∈ ps, covers q x y = false := by
        intro q hq
        by_contra hne
        exact hrest ⟨q, hq, by simpa using hne⟩
      have hcov : covers p x y = true := by
        rcases h with ⟨q, hq, hcq⟩
        rcases List.mem_cons.mp hq with hqe | hq'
        · exact hqe ▸ hcq
        · exact absurd ⟨q, hq', hcq⟩ hrest
      have h1 := applyPastes_of_not_covers ps x y (paste b₁ p) hnone
      have h2 := applyPastes_of_not_covers ps x y (paste b₂ p) hnone
      rw [show applyPastes b₁ (p :: ps) = applyPastes (paste b₁ p) ps from rfl,
        show applyPastes b₂ (p :: ps) = applyPastes (paste b₂ p) ps from rfl, h1, h2]
      unfold paste
      unfold covers at hcov
      cases hs : p.sprite (x - p.ox) (y - p.oy) with
      | none => rw [hs] at hcov; simp at hcov
      | some c => simp

/-- C1 (counterexample): `load_table` accepts `c1File`, whose single grid
row has 3 cells, although its header line `+-+` contains 2 `+` characters,
so the header-derived count would be 1: the parsed grid does not satisfy
"every row's length equals the header's `+` count minus one". -/
theorem c1_counterexample :
    (load_table c1File).toOption.map (fun r => r.table.map List.length) = some [3] ∧
    ("+-+".toList.count '+') - 1 = 1 ∧ (3 : Nat) ≠ 1 := by decide

/-- C1 (amended): a parsed row's length is the minimum of the cell counts
of its own spaces line and tokens line (cells being the `|`-split with the
first and last pieces dropped); the header's `+` count plays no part in
it. -/
theorem c1_amended (s t : Line) :
    (parseRow s t).length = min (cellsOf s).length (cellsOf t).length := by
  simp [parseRow]

/-- C2 (code evaluated at the failing input): the two directive lines of
`c2File` are parsed as `HIGHLIGHT ROW 0` and `HIGHLIGHT COLUMN 5`, yet the
directive list `load_table` returns applies `HIGHLIGHT COLUMN 5` twice:
the first stored directive does not carry its own line's arguments. -/
theorem c2_directive_closure_bug :
    parseDirs ["HIGHLIGHT ROW 0".toList, "HIGHLIGHT COLUMN 5".toList, []] =
      .ok ([(hlL, [rowL, ['0']]), (hlL, [colL, ['5']])], []) ∧
    (load_table c2File).toOption.map (fun r => r.dirs) =
      some [(hlL, [colL, ['5']]), (hlL, [colL, ['5']])] :=
  ⟨rfl, rfl⟩

/-- C3 (counterexample): compositing a grid that references the space
identifier `foo`, absent from the sprite dictionary, raises `KeyError`
rather than silently skipping the cell. -/
theorem c3_counterexample :
    render_image emptyDicts emptyImage emptyImage c3Table =
      .error "KeyError: space identifier not in dictionary" := rfl

/-- C3 (amended): token and item identifiers missing from the dictionary,
or present without a thumbnail, are non-fatal and resolve to no image; but
a visible cell whose space identifier is missing from the spaces
dictionary (or present without a coords entry) raises a fatal
`KeyError`. -/
theorem c3_amended :
    (∀ (tk : Sheet) (d : List (Line × TokenEntry)) (n : Line),
       pyDictGet d n = none → Ref.imageIn tk d n = none) ∧
    (∀ (tk : Sheet) (d : List (Line × TokenEntry)) (n : Line) (e : TokenEntry),
       pyDictGet d n = some e → e.thumbnail = none → Ref.imageIn tk d n = none) ∧
    (∀ (sheet : Sheet) (d : List (Line × SpaceEntry)) (s : Line) (rs : List Char),
       pyDictGet d s = none →
       Space.image d sheet (Space.mk (some s) rs true) =
         .error "KeyError: space identifier not in dictionary") ∧
    (∀ (sheet : Sheet) (d : List (Line × SpaceEntry)) (s : Line) (rs : List Char)
       (en : SpaceEntry),
       pyDictGet d s = some en → en.coords = none →
       Space.image d sheet (Space.mk (some s) rs true) = .error "KeyError: coords") := by
  refine ⟨?_, ?_, ?_, ?_⟩
  · intro tk d n h; simp [Ref.imageIn, h]
  · intro tk d n e h ht; simp [Ref.imageIn, h, ht]
  · intro sheet d s rs h; simp [Space.image, h, errBind, okBind]
  · intro sheet d s rs en h hc; simp [Space.image, h, hc, errBind, okBind]

/-- C3 (witness): concrete instances of the four cases of `c3_amended`. -/
theorem c3_amended_witness :
    (pyDictGet ([] : List (Line × TokenEntry)) ['a'] = none ∧
       Ref.imageIn emptyImage [] ['a'] = none) ∧
    (pyDictGet [(['b'], (⟨none, none⟩ : TokenEntry))] ['b'] = some ⟨none, none⟩ ∧
       (⟨none, none⟩ : TokenEntry).thumbnail = none ∧
       Ref.imageIn emptyImage [(['b'], ⟨none, none⟩)] ['b'] = none) ∧
    (pyDictGet ([] : List (Line × SpaceEntry)) ['s'] = none ∧
       Space.image [] emptyImage (Space.mk (some ['s']) [] true) =
         .error "KeyError: space identifier not in dictionary") ∧
    (pyDictGet [(['s'], (⟨none⟩ : SpaceEntry))] ['s'] = some ⟨none⟩ ∧
       Space.image [(['s'], ⟨none⟩)] emptyImage (Space.mk (some ['s']) [] true) =
         .error "KeyError: coords") :=
  ⟨⟨rfl, c3_amended.1 emptyImage [] ['a'] rfl⟩,
   ⟨rfl, rfl, c3_amended.2.1 emptyImage [(['b'], ⟨none, none⟩)] ['b'] ⟨none, none⟩ rfl rfl⟩,
   ⟨rfl, c3_amended.2.2.1 emptyImage [] ['s'] [] rfl⟩,
   ⟨rfl, c3_amended.2.2.2 emptyImage [(['s'], ⟨none⟩)] ['s'] [] ⟨none⟩ rfl rfl⟩⟩

/-- C4 (code evaluated at the failing inputs): on `c4File`, which is laid
out exactly as claimed (version `1` as the first non-comment line), the
parse fails with `ValueError` because the comment-skipping loop consumed
the version line and the header was parsed as the version; and on
`c4bFile` (version `2` in the position the code actually reads) the parse
aborts by evaluating `StandardError`, a name undefined in Python 3. -/
theorem c4_version_parse_bug :
    load_table c4File = .error "ValueError: invalid literal for int" ∧
    load_table c4bFile = .error "NameError: name StandardError is not defined" :=
  ⟨rfl, rfl⟩

/-- C10: the raw cell `"?"` parses to a hidden gap (`space_abbr` strips
the `?` before the empty-string translation, while visibility is computed
from the raw string), and `"nil?"` parses to a hidden absent
identifier. -/
theorem c10_hidden_gap_nil :
    Space.init ['?'] [] = ⟨some gapL, [], false⟩ ∧
    Space.init ['n', 'i', 'l', '?'] [] = ⟨none, [], false⟩ := by decide

/-- C5: on a table whose shape unpacking succeeds (a nonempty rectangular
grid — `render_image` raises `ValueError` otherwise, before any pass) and
whose three pass computations succeed, `render_image` is the directives
applied to the ref pass applied to the space pass applied to the gap pass
applied to the blank canvas — each pass fully completes before the next
starts; and at any pixel written by a layer-1 (resp. ref) paste, the
pass's output does not depend on the image produced by the passes below it
(instantiate `b` with the gap-pass image, resp. the image after both tile
passes), so a layer-1 tile occludes any layer-0 tile there and a token
image occludes both, whatever the cell order in the grid. -/
theorem c5_render_order_occlusion
    (d : Dicts) (sp tk : Sheet) (tbl : Table) (ht wd : Nat) (gl sl rl : List Paste)
    (hsh : tableShape tbl.table = .ok (ht, wd))
    (hg : layerPastes 0 d.spaces sp tbl.table = .ok gl)
    (hs : layerPastes 1 d.spaces sp tbl.table = .ok sl)
    (hr : refPastes d.items d.tokens tk tbl.refs tbl.table = .ok rl) :
    render_image d sp tk tbl =
      applyDirs ((wd : Int) * WIDTH, (ht : Int) * HEIGHT)
        tbl.dirs (applyPastes (applyPastes (applyPastes emptyImage gl) sl) rl) ∧
    (∀ x y : Int, (∃ p ∈ sl, covers p x y = true) →
       ∀ b : Image, applyPastes b sl x y = applyPastes emptyImage sl x y) ∧
    (∀ x y : Int, (∃ p ∈ rl, covers p x y = true) →
       ∀ b : Image, applyPastes b rl x y = applyPastes emptyImage rl x y) := by
  refine ⟨?_, ?_, ?_⟩
  · simp only [render_image, hsh, hg, hs, hr]; rfl
  · intro x y h b; exact applyPastes_congr sl x y h b emptyImage
  · intro x y h b; exact applyPastes_congr rl x y h b emptyImage

/-- C5 (witness): the theorem applied to a 1×2 grid holding a gap tile and
a normal `a` tile, with an everywhere-opaque sheet: the shape unpack gives
(1, 2), the gap pass pastes the gap crop at (0, 0), the space pass pastes
the `a` crop at (32, 0), and the ref pass pastes nothing. -/
theorem c5_render_order_occlusion_witness :
    (tableShape c5Table.table = .ok (1, 2)) ∧
    (layerPastes 0 c5Dicts.spaces fullSheet c5Table.table =
       .ok [Paste.mk (cropSheet fullSheet 0 0 32 32) 0 0]) ∧
    (layerPastes 1 c5Dicts.spaces fullSheet c5Table.table =
       .ok [Paste.mk (cropSheet fullSheet 32 0 64 32) 32 0]) ∧
    (refPastes c5Dicts.items c5Dicts.tokens fullSheet c5Table.refs c5Table.table =
       .ok []) ∧
    (render_image c5Dicts fullSheet fullSheet c5Table =
       applyDirs ((2 : Int) * WIDTH, (1 : Int) * HEIGHT) c5Table.dirs
         (applyPastes (applyPastes (applyPastes emptyImage
            [Paste.mk (cropSheet fullSheet 0 0 32 32) 0 0])
            [Paste.mk (cropSheet fullSheet 32 0 64 32) 32 0]) []) ∧
     (∀ x y : Int,
        (∃ p ∈ [Paste.mk (cropSheet fullSheet 32 0 64 32) 32 0], covers p x y = true) →
        ∀ b : Image,
          applyPastes b [Paste.mk (cropSheet fullSheet 32 0 64 32) 32 0] x y =
            applyPastes emptyImage [Paste.mk (cropSheet fullSheet 32 0 64 32) 32 0] x y) ∧
     (∀ x y : Int, (∃ p ∈ ([] : List Paste), covers p x y = true) →
        ∀ b : Image, applyPastes b [] x y = applyPastes emptyImage [] x y)) :=
  ⟨rfl, rfl, rfl, rfl,
   c5_render_order_occlusion c5Dicts fullSheet fullSheet c5Table 1 2
     [Paste.mk (cropSheet fullSheet 0 0 32 32) 0 0]
     [Paste.mk (cropSheet fullSheet 32 0 64 32) 32 0]
     [] rfl rfl rfl rfl⟩

/-- C6: the raw identifier `X?` (for `X` neither `nil` nor empty) parses
to identifier `X` with `visible = false`; the empty identifier parses to
`gap` with `visible = true`; `nil` parses to an absent identifier with
`visible = true`; and the layer derivation gives no layer to the absent
identifier, layer 0 to `gap`, and layer 1 to every other identifier (so in
particular to a hidden `X?` cell). -/
theorem c6_space_abbr_layer :
    (∀ (x : Line) (rs : List Char), x ≠ nilL → x ≠ [] →
       Space.init (x ++ ['?']) rs = ⟨some x, rs, false⟩) ∧
    (∀ rs, Space.init [] rs = ⟨some gapL, rs, true⟩) ∧
    (∀ rs, Space.init nilL rs = ⟨none, rs, true⟩) ∧
    (∀ (x : Line) (rs : List Char), x ≠ nilL → x ≠ [] → x ≠ gapL →
       (Space.init (x ++ ['?']) rs).layer = some 1) ∧
    space_layer none = none ∧
    space_layer (some gapL) = some 0 ∧
    (∀ s : Line, s ≠ gapL → space_layer (some s) = some 1) := by
  have h1 : ∀ (x : Line) (rs : List Char), x ≠ nilL → x ≠ [] →
      Space.init (x ++ ['?']) rs = ⟨some x, rs, false⟩ := by
    intro x rs hn he
    have hq : endsQ (x ++ ['?']) = true := by simp [endsQ, List.getLast?_concat]
    simp [Space.init, space_abbr, hq, List.dropLast_concat, hn, he]
  have h7 : ∀ s : Line, s ≠ gapL → space_layer (some s) = some 1 := by
    intro s hs; simp [space_layer, hs]
  refine ⟨h1, ?_, ?_, ?_, rfl, rfl, h7⟩
  · intro rs; rfl
  · intro rs; rfl
  · intro x rs hn he hg
    rw [h1 x rs hn he]
    exact h7 x hg

/-- C6 (witness): the hypothesis-bearing parts of `c6_space_abbr_layer`
instantiated at the identifier `X`. -/
theorem c6_space_abbr_layer_witness :
    ((['X'] : Line) ≠ nilL ∧ (['X'] : Line) ≠ [] ∧ (['X'] : Line) ≠ gapL) ∧
    Space.init (['X'] ++ ['?']) [] = ⟨some ['X'], [], false⟩ ∧
    (Space.init (['X'] ++ ['?']) []).layer = some 1 ∧
    space_layer (some ['X']) = some 1 :=
  ⟨⟨by decide, by decide, by decide⟩,
   c6_space_abbr_layer.1 ['X'] [] (by decide) (by decide),
   c6_space_abbr_layer.2.2.2.1 ['X'] [] (by decide) (by decide) (by decide),
   c6_space_abbr_layer.2.2.2.2.2.2 ['X'] (by decide)⟩

/-- C7: when a ref's item identifier resolves in the items dictionary with
a thumbnail at `(x, y)`, its image is the token-sheet crop at `(x, y)`
with extent `16 * span` (span defaulting to 1×1) — the item image wins;
when the item image does not resolve, the image falls back to the
token-name lookup; and such a crop's opaque pixels lie within
`[0, 16*spanX) × [0, 16*spanY)`, i.e. the crop has width `16*spanX` and
height `16*spanY`. -/
theorem c7_ref_image_resolution :
    (∀ (tk : Sheet) (items toks : List (Line × TokenEntry)) (r : Ref)
       (e : TokenEntry) (x y : Int),
       pyDictGet items r.item = some e → e.thumbnail = some (x, y) →
       Ref.image tk items toks r =
         some (cropSheet tk x y (x + 16 * (e.span.getD (1, 1)).1)
                                (y + 16 * (e.span.getD (1, 1)).2))) ∧
    (∀ (tk : Sheet) (items toks : List (Line × TokenEntry)) (r : Ref),
       Ref.imageIn tk items r.item = none →
       Ref.image tk items toks r = Ref.imageIn tk toks r.name) ∧
    (∀ (sheet : Sheet) (x y sx sy u v : Int),
       cropSheet sheet x y (x + 16 * sx) (y + 16 * sy) u v ≠ none →
       0 ≤ u ∧ u < 16 * sx ∧ 0 ≤ v ∧ v < 16 * sy) := by
  refine ⟨?_, ?_, ?_⟩
  · intro tk items toks r e x y hl ht
    simp [Ref.image, Ref.imageIn, hl, ht]
  · intro tk items toks r h
    simp [Ref.image, h]
  · intro sheet x y sx sy u v h
    simp only [cropSheet] at h
    split_ifs at h with hc
    · omega
    · simp at h

/-- C7 (witness): the three parts of `c7_ref_image_resolution` applied at
a one-entry items dictionary with thumbnail `(3, 4)` and default span. -/
theorem c7_ref_image_resolution_witness :
    (pyDictGet c7Items c7Ref.item = some ⟨some (3, 4), none⟩ ∧
       (⟨some (3, 4), none⟩ : TokenEntry).thumbnail = some (3, 4)) ∧
    Ref.image fullSheet c7Items [] c7Ref =
      some (cropSheet fullSheet 3 4 (3 + 16 * 1) (4 + 16 * 1)) ∧
    (Ref.imageIn fullSheet [] c7Ref.item = none ∧
       Ref.image fullSheet [] [] c7Ref = Ref.imageIn fullSheet [] c7Ref.name) ∧
    (cropSheet fullSheet 3 4 (3 + 16 * 1) (4 + 16 * 1) 0 0 ≠ none ∧
       (0 ≤ (0 : Int) ∧ (0 : Int) < 16 * 1 ∧ 0 ≤ (0 : Int) ∧ (0 : Int) < 16 * 1)) :=
  ⟨⟨rfl, rfl⟩,
   c7_ref_image_resolution.1 fullSheet c7Items [] c7Ref ⟨some (3, 4), none⟩ 3 4 rfl rfl,
   ⟨rfl, c7_ref_image_resolution.2.1 fullSheet [] [] c7Ref rfl⟩,
   ⟨by decide, c7_ref_image_resolution.2.2 fullSheet 3 4 1 1 0 0 (by decide)⟩⟩

/-- C8: the token entry exported for a ref with offset `(dx, dy)` in cell
`(x, y)` has position `(x * 32 + dx, y * 32 + dy)` (and its display name
substitutes the item identifier when the ref's name is the `item`
sentinel); and the exported 2D spaces array maps each cell through
`elem.space or "gap"`, so an absent identifier is exported as the string
`gap`. -/
theorem c8_json_export :
    (∀ (refs : List (Line × Ref)) (x y : Nat) (code : Char) (r : Ref),
       pyDictGet refs [code] = some r →
       tokenEntry refs x y code =
         .ok ⟨if r.name = itemL then r.item else r.name,
              ((x : Int) * WIDTH + r.pos.1, (y : Int) * HEIGHT + r.pos.2)⟩) ∧
    (pyOrGap none = gapL) ∧
    (∀ (tbl : List (List Space)) (refs : List (Line × Ref)) (b : JsonBoard),
       render_json tbl refs = .ok b →
       b.spaces = tbl.map (fun row => row.map (fun e => pyOrGap e.space))) := by
  refine ⟨?_, rfl, ?_⟩
  · intro refs x y code r h
    simp [tokenEntry, h]
  · intro tbl refs b h
    unfold render_json at h
    cases he : (enumGrid tbl).mapM (fun c => c.2.2.refs.mapM (tokenEntry refs c.1 c.2.1)) with
    | error e =>
      rw [he, errBind] at h
      exact Except.noConfusion h
    | ok ts =>
      rw [he, okBind] at h
      have h2 : (⟨tbl.map (fun row => row.map (fun e => pyOrGap e.space)), ts.flatten⟩ : JsonBoard) = b :=
        Except.ok.inj h
      rw [← h2]

/-- C8 (witness): `c8_json_export` at cell `(col 2, row 1)` with offset
`(5, 7)` — position `(2*32+5, 1*32+7)` — and at a one-cell grid whose
absent space identifier is exported as `gap`. -/
theorem c8_json_export_witness :
    (pyDictGet c8Refs ['a'] = some ⟨['t'], nilL, (5, 7)⟩) ∧
    tokenEntry c8Refs 2 1 'a' =
      .ok ⟨['t'], ((2 : Int) * WIDTH + 5, (1 : Int) * HEIGHT + 7)⟩ ∧
    (render_json c8Tbl c8Refs = .ok ⟨[[gapL]], [⟨['t'], (5, 7)⟩]⟩) ∧
    (⟨[[gapL]], [⟨['t'], (5, 7)⟩]⟩ : JsonBoard).spaces =
      c8Tbl.map (fun row => row.map (fun e => pyOrGap e.space)) :=
  ⟨rfl,
   c8_json_export.1 c8Refs 2 1 'a' ⟨['t'], nilL, (5, 7)⟩ rfl,
   rfl,
   c8_json_export.2.2 c8Tbl c8Refs ⟨[[gapL]], [⟨['t'], (5, 7)⟩]⟩ rfl⟩

/-- C9: `HIGHLIGHT ROW n` builds the closed 4-wide red polyline whose
corners are `(0, 32*n)` and `(imageWidth, 32*(n+1))` — it spans
`y = [32*n, 32*(n+1)]` across the full image width; `HIGHLIGHT COLUMN n`
analogously bounds `x = [32*n, 32*(n+1)]` across the full image height;
and every draw command `highlightCmd` produces is closed (its first point
equals its last). -/
theorem c9_highlight_geometry :
    (∀ (wd ht : Int) (numS : Line) (n : Int), pyInt numS = .ok n →
       highlightCmd (wd, ht) [rowL, numS] =
         .ok ⟨[(0, 32 * n), (0, 32 * (n + 1)), (wd, 32 * (n + 1)),
               (wd, 32 * n), (0, 32 * n)], 4, redColor⟩) ∧
    (∀ (wd ht : Int) (numS : Line) (n : Int), pyInt numS = .ok n →
       highlightCmd (wd, ht) [colL, numS] =
         .ok ⟨[(32 * n, 0), (32 * n, ht), (32 * (n + 1), ht),
               (32 * (n + 1), 0), (32 * n, 0)], 4, redColor⟩) ∧
    (∀ (wd ht : Int) (args : List Line) (c : DrawCmd),
       highlightCmd (wd, ht) args = .ok c → c.points.head? = c.points.getLast?) := by
  refine ⟨?_, ?_, ?_⟩
  · intro wd ht numS n h
    simp [highlightCmd, h, okBind, HEIGHT]
  · intro wd ht numS n h
    simp [highlightCmd, h, okBind, WIDTH, colL, rowL]
  · intro wd ht args c h
    match args with
    | [] => exact Except.noConfusion h
    | [a1] => exact Except.noConfusion h
    | a1 :: a2 :: a3 :: rest => exact Except.noConfusion h
    | [a1, a2] =>
      simp only [highlightCmd] at h
      cases hp : pyInt a2 with
      | error e =>
        rw [hp, errBind] at h
        exact Except.noConfusion h
      | ok n =>
        rw [hp, okBind] at h
        split_ifs at h with h1 h2
        · cases Except.ok.inj h; rfl
        · cases Except.ok.inj h; rfl

/-- C9 (witness): the row and column cases at `n = 1` on a 96×64 canvas
(`y` spans `[32, 64]`, the full 96-pixel width is covered), plus the
closedness of the resulting command. -/
theorem c9_highlight_geometry_witness :
    (pyInt ['1'] = .ok 1) ∧
    highlightCmd (96, 64) [rowL, ['1']] =
      .ok ⟨[(0, 32 * 1), (0, 32 * (1 + 1)), (96, 32 * (1 + 1)),
            (96, 32 * 1), (0, 32 * 1)], 4, redColor⟩ ∧
    highlightCmd (96, 64) [colL, ['1']] =
      .ok ⟨[(32 * 1, 0), (32 * 1, 64), (32 * (1 + 1), 64),
            (32 * (1 + 1), 0), (32 * 1, 0)], 4, redColor⟩ ∧
    (highlightCmd (96, 64) [rowL, ['1']] =
       .ok (⟨[(0, 32), (0, 64), (96, 64), (96, 32), (0, 32)], 4, redColor⟩ : DrawCmd) ∧
     (⟨[(0, 32), (0, 64), (96, 64), (96, 32), (0, 32)], 4, redColor⟩ : DrawCmd).points.head? =
       (⟨[(0, 32), (0, 64), (96, 64), (96, 32), (0, 32)], 4, redColor⟩ : DrawCmd).points.getLast?) :=
  ⟨rfl,
   c9_highlight_geometry.1 96 64 ['1'] 1 rfl,
   c9_highlight_geometry.2.1 96 64 ['1'] 1 rfl,
   ⟨rfl, c9_highlight_geometry.2.2 96 64 [rowL, ['1']] _ rfl⟩⟩

end Wuas
